import Mathlib

/-!
Verification of the task-utils core of the HealthGo factory task tracker.

The definitions below are a shallow embedding of src/task-utils.js.
JavaScript numbers occurring in the tasks are integers in every code path
modelled here, so they are embedded as Int (the one float computation, the
progress percentage of renderTaskCard, is embedded over Rat with an Option
capturing division by zero).  JavaScript objects become structures; a task
field that may be absent becomes an Option.
-/

namespace HealthGo

/-- A task record as consumed by task-utils.js: id, name, executionCount,
targetCount, isCompleted, optional priority, optional teamName, optional
hasConflict flag.  The priority field models the presence check done by
the nullish-coalescing operator in the source. -/
structure Task where
  id : Nat
  name : String
  executionCount : Int
  targetCount : Int
  isCompleted : Bool
  priority : Option Int := none
  teamName : Option String := none
  hasConflict : Bool := false
deriving DecidableEq

/-- Embeds the expression task.priority ?? 10 from the source. -/
def defaultPriority (t : Task) : Int :=
  t.priority.getD 10

/-- incrementExecutionCount from task-utils.js lines 158-163:
completed tasks keep their count, otherwise min(executionCount + 1, targetCount). -/
def incrementExecutionCount (task : Task) : Int :=
  if task.isCompleted then task.executionCount
  else min (task.executionCount + 1) task.targetCount

/-- decrementExecutionCount from task-utils.js lines 171-176:
completed tasks keep their count, otherwise max(executionCount - 1, 0). -/
def decrementExecutionCount (task : Task) : Int :=
  if task.isCompleted then task.executionCount
  else max (task.executionCount - 1) 0

/-- shouldTriggerCompletionPrompt from task-utils.js lines 185-188. -/
def shouldTriggerCompletionPrompt (task : Task) (newCount : Int) : Bool :=
  !task.isCompleted && newCount == task.targetCount

/-- confirmCompletion from task-utils.js lines 196-202: marks complete
only when the execution count equals the target count. -/
def confirmCompletion (task : Task) : Task :=
  if task.executionCount = task.targetCount then { task with isCompleted := true }
  else task

/-- declineCompletion from task-utils.js lines 210-213: unconditionally
returns a copy with isCompleted set to false. -/
def declineCompletion (task : Task) : Task :=
  { task with isCompleted := false }

/-- A completed sample task used to instantiate universally quantified
theorems at a concrete input. -/
def sampleDone : Task :=
  { id := 1, name := "a", executionCount := 3, targetCount := 3, isCompleted := true }

/-- An active sample task part way to its target. -/
def sampleActive : Task :=
  { id := 2, name := "b", executionCount := 2, targetCount := 5, isCompleted := false }

/-- An active sample task whose execution count equals its target. -/
def sampleAtTarget : Task :=
  { id := 3, name := "c", executionCount := 5, targetCount := 5, isCompleted := false }

/-- An active sample task with executionCount = 0. -/
def sampleFresh : Task :=
  { id := 4, name := "d", executionCount := 0, targetCount := 5, isCompleted := false }

/-- An active sample task with targetCount = 0 and executionCount = 0. -/
def sampleZeroTarget : Task :=
  { id := 7, name := "z", executionCount := 0, targetCount := 0, isCompleted := false }

/-- One entry of the comments array: either a string or any non-string
value (the source skips non-strings with a typeof check). -/
inductive CommentEntry
  | str (s : String)
  | nonString
deriving DecidableEq

/-- The possible shapes of the comments argument: null/undefined (or any
falsy value), a non-array value, or an array of entries. -/
inductive CommentsValue
  | nullish
  | notArray
  | arr (entries : List CommentEntry)

/-- Case-insensitive match of a lowercase pattern against the head of a
character list; on success returns the remaining characters.  Models the
literal part of the regex PRIORITY: under the i flag. -/
def stripCI : List Char → List Char → Option (List Char)
  | [], cs => some cs
  | _ :: _, [] => none
  | p :: ps, c :: cs => if c.toLower = p then stripCI ps cs else none

/-- Numeric value of a digit run, as captured by the regex group and
parsed by parseInt(..., 10). -/
def digitsVal (ds : List Char) : Nat :=
  ds.foldl (fun n c => 10 * n + (c.toNat - 48)) 0

/-- Attempts to match the regex PRIORITY:(-?\d+) (case-insensitive) at the
start of the character list, returning the captured integer.  The digit
run is maximal, as the greedy \d+ takes it; a lone minus with no digits is
no match, as the regex cannot complete. -/
def matchPriorityAt (cs : List Char) : Option Int :=
  match stripCI "priority:".data cs with
  | none => none
  | some rest =>
    match rest with
    | '-' :: rest2 =>
      let ds := rest2.takeWhile Char.isDigit
      if ds.isEmpty then none else some (-(digitsVal ds : Int))
    | _ =>
      let ds := rest.takeWhile Char.isDigit
      if ds.isEmpty then none else some ((digitsVal ds : Int))

/-- Leftmost match of PRIORITY:(-?\d+) in a character list: the regex
engine tries each start position from the left, as String.match does. -/
def findPriorityMatch : List Char → Option Int
  | [] => none
  | c :: cs =>
    match matchPriorityAt (c :: cs) with
    | some v => some v
    | none => findPriorityMatch cs

/-- The per-entry step of the loop in extractPriority: non-string entries
are skipped (typeof check), string entries are matched against the regex.
The captured group always consists of digits, so the parseInt result is
never NaN and the isNaN branch of the source is dead code. -/
def entryMatch : CommentEntry → Option Int
  | .nonString => none
  | .str s => findPriorityMatch s.data

/-- Embeds Math.max(1, Math.min(10, value)) from the source. -/
def clamp110 (value : Int) : Int :=
  max 1 (min 10 value)

/-- The loop of extractPriority over the comments array: first matching
entry wins and its captured value is clamped; no match means default 10. -/
def scanComments : List CommentEntry → Int
  | [] => 10
  | e :: rest =>
    match entryMatch e with
    | some v => clamp110 v
    | none => scanComments rest

/-- extractPriority from task-utils.js lines 34-60: null, undefined,
non-array and empty inputs default to 10, otherwise the comments are
scanned in order for the first PRIORITY match. -/
def extractPriority : CommentsValue → Int
  | .nullish => 10
  | .notArray => 10
  | .arr l => if l.length = 0 then 10 else scanComments l

/-- getPriorityBorderColor from task-utils.js lines 14-25. -/
def getPriorityBorderColor (priority : Int) : String :=
  if 1 ≤ priority ∧ priority ≤ 3 then "border-l-red-500"
  else if 4 ≤ priority ∧ priority ≤ 7 then "border-l-yellow-500"
  else "border-l-blue-500"

/-- Division as performed by the progress computation, with None standing
for the NaN/Infinity results a zero divisor would produce in the source
language. -/
def jsDiv (a b : ℚ) : Option ℚ :=
  if b = 0 then none else some (a / b)

/-- The progress computation of renderTaskCard, task-utils.js line 70:
targetCount > 0 guards the division, otherwise the progress is 0. -/
def renderProgress (task : Task) : Option ℚ :=
  if 0 < task.targetCount then
    (jsDiv (task.executionCount : ℚ) (task.targetCount : ℚ)).map (fun q => q * 100)
  else some 0

/-- The comparator passed to Array.prototype.sort in sortTasks,
task-utils.js lines 129-147, acting on a task paired with its original
index (the source wraps each task as an object holding the task and its
originalIndex; here the pair (originalIndex, task) plays that role). -/
def sortComparator (a b : Nat × Task) : Int :=
  if a.2.isCompleted ≠ b.2.isCompleted then
    (if a.2.isCompleted then 1 else -1)
  else if a.2.isCompleted = false then
    (if defaultPriority a.2 ≠ defaultPriority b.2 then
      defaultPriority a.2 - defaultPriority b.2
    else (a.1 : Int) - (b.1 : Int))
  else (a.1 : Int) - (b.1 : Int)

/-- The non-strict order induced by the comparator.  On distinct indices
the comparator never returns 0, so any comparison sort agrees with a
stable merge sort under this order; this embeds Array.prototype.sort,
which is stable and, for a consistent comparator, produces the unique
order in which every pair compares non-positively left to right. -/
def sortLE (a b : Nat × Task) : Bool :=
  decide (sortComparator a b ≤ 0)

/-- sortTasks from task-utils.js lines 125-150, before the final
projection: each task is paired with its original index and sorted with
the comparator. -/
def sortTasksIdx (tasks : List Task) : List (Nat × Task) :=
  tasks.enum.mergeSort sortLE

/-- sortTasks from task-utils.js lines 125-150: the sorted index-task
pairs projected back to tasks. -/
def sortTasks (tasks : List Task) : List Task :=
  (sortTasksIdx tasks).map Prod.snd

/-- Claim C4: on a completed task both counter operations return the
execution count unchanged; on an active task increment returns
min(executionCount + 1, targetCount) and decrement returns
max(executionCount - 1, 0). -/
theorem executionCount_bounds (t : Task) :
    (t.isCompleted = true →
      incrementExecutionCount t = t.executionCount ∧
      decrementExecutionCount t = t.executionCount) ∧
    (t.isCompleted = false →
      incrementExecutionCount t = min (t.executionCount + 1) t.targetCount ∧
      decrementExecutionCount t = max (t.executionCount - 1) 0) := by
  constructor
  · intro h
    simp [incrementExecutionCount, decrementExecutionCount, h]
  · intro h
    simp [incrementExecutionCount, decrementExecutionCount, h]

theorem executionCount_bounds_witness :
    incrementExecutionCount sampleDone = 3 ∧
    incrementExecutionCount sampleActive = 3 ∧
    decrementExecutionCount sampleFresh = 0 := by
  refine ⟨?_, ?_, ?_⟩
  · exact ((executionCount_bounds sampleDone).1 rfl).1
  · have h := ((executionCount_bounds sampleActive).2 rfl).1
    simpa [sampleActive] using h
  · have h := ((executionCount_bounds sampleFresh).2 rfl).2
    simpa [sampleFresh] using h

/-- Claim C5: the completion prompt fires exactly when the task is not
completed and the new count equals the target count. -/
theorem shouldTriggerCompletionPrompt_iff (t : Task) (newCount : Int) :
    shouldTriggerCompletionPrompt t newCount = true ↔
      t.isCompleted = false ∧ newCount = t.targetCount := by
  cases h : t.isCompleted <;>
    simp [shouldTriggerCompletionPrompt, h]

/-- Claim C6: confirmCompletion returns a copy with isCompleted = true
exactly when the execution count equals the target count, and otherwise
returns the task unchanged. -/
theorem confirmCompletion_guarded (t : Task) :
    (t.executionCount = t.targetCount →
      confirmCompletion t = { t with isCompleted := true }) ∧
    (t.executionCount ≠ t.targetCount → confirmCompletion t = t) := by
  constructor
  · intro h
    simp [confirmCompletion, h]
  · intro h
    simp [confirmCompletion, h]

theorem confirmCompletion_guarded_witness :
    confirmCompletion sampleAtTarget = { sampleAtTarget with isCompleted := true } ∧
    confirmCompletion sampleActive = sampleActive := by
  constructor
  · exact (confirmCompletion_guarded sampleAtTarget).1 rfl
  · exact (confirmCompletion_guarded sampleActive).2 (by decide)

/-- Claim C3 counterexample: declineCompletion applied to a completed task
returns a task with isCompleted = false, so a core operation does yield an
un-completed task from a completed one. -/
theorem declineCompletion_uncompletes_completed :
    sampleDone.isCompleted = true ∧
    (declineCompletion sampleDone).isCompleted = false :=
  ⟨rfl, rfl⟩

/-- Claim C3 amended: for a completed task, confirmCompletion keeps
isCompleted = true and the counter operations leave the count unchanged,
but declineCompletion unconditionally returns a copy with
isCompleted = false, so applying it to a completed task does transition
the task back to active. -/
theorem completed_terminal_except_decline (t : Task) (h : t.isCompleted = true) :
    (confirmCompletion t).isCompleted = true ∧
    incrementExecutionCount t = t.executionCount ∧
    decrementExecutionCount t = t.executionCount ∧
    declineCompletion t = { t with isCompleted := false } := by
  refine ⟨?_, ?_, ?_, rfl⟩
  · by_cases hc : t.executionCount = t.targetCount <;>
      simp [confirmCompletion, hc, h]
  · simp [incrementExecutionCount, h]
  · simp [decrementExecutionCount, h]

theorem completed_terminal_except_decline_witness :
    (confirmCompletion sampleDone).isCompleted = true ∧
    incrementExecutionCount sampleDone = 3 :=
  ⟨(completed_terminal_except_decline sampleDone rfl).1,
   (completed_terminal_except_decline sampleDone rfl).2.1⟩

/-- Claim C10: an active task with targetCount = 0 and executionCount = 0
never gains progress from increment (the result is 0), yet the completion
prompt fires for newCount = 0 and confirmCompletion marks it completed. -/
theorem zeroTarget_completion (t : Task) (h1 : t.isCompleted = false)
    (h2 : t.targetCount = 0) (h3 : t.executionCount = 0) :
    incrementExecutionCount t = 0 ∧
    shouldTriggerCompletionPrompt t 0 = true ∧
    confirmCompletion t = { t with isCompleted := true } := by
  refine ⟨?_, ?_, ?_⟩
  · simp [incrementExecutionCount, h1, h2, h3]
  · simp [shouldTriggerCompletionPrompt, h1, h2]
  · simp [confirmCompletion, h2, h3]

theorem zeroTarget_completion_witness :
    incrementExecutionCount sampleZeroTarget = 0 ∧
    shouldTriggerCompletionPrompt sampleZeroTarget 0 = true ∧
    confirmCompletion sampleZeroTarget = { sampleZeroTarget with isCompleted := true } :=
  zeroTarget_completion sampleZeroTarget rfl rfl rfl

theorem scanComments_append_none (pre l : List CommentEntry)
    (hpre : ∀ e ∈ pre, entryMatch e = none) :
    scanComments (pre ++ l) = scanComments l := by
  induction pre with
  | nil => rfl
  | cons e pre ih =>
    have he : entryMatch e = none := hpre e (List.mem_cons_self e pre)
    have hpre' : ∀ x ∈ pre, entryMatch x = none :=
      fun x hx => hpre x (List.mem_cons_of_mem e hx)
    simp [scanComments, he, ih hpre']

theorem scanComments_no_match (l : List CommentEntry)
    (h : ∀ e ∈ l, entryMatch e = none) :
    scanComments l = 10 := by
  have := scanComments_append_none l [] h
  simpa using this

/-- Claim C2: extractPriority returns the clamp into [1,10] of the integer
captured by the first entry containing the PRIORITY pattern, ignoring all
later matching entries; in particular the list
[note, PRIORITY:15, PRIORITY:2] yields 10. -/
theorem extractPriority_first_match_clamped
    (pre : List CommentEntry) (s : String) (rest : List CommentEntry) (v : Int)
    (hpre : ∀ e ∈ pre, entryMatch e = none)
    (hs : entryMatch (CommentEntry.str s) = some v) :
    extractPriority (CommentsValue.arr (pre ++ CommentEntry.str s :: rest)) =
      max 1 (min 10 v) ∧
    extractPriority (CommentsValue.arr
      [CommentEntry.str "note", CommentEntry.str "PRIORITY:15",
       CommentEntry.str "PRIORITY:2"]) = 10 := by
  constructor
  · have hlen : (pre ++ CommentEntry.str s :: rest).length ≠ 0 := by
      simp
    simp only [extractPriority, hlen, if_false]
    rw [scanComments_append_none pre _ hpre]
    simp [scanComments, hs, clamp110]
  · decide

theorem extractPriority_first_match_clamped_witness :
    extractPriority (CommentsValue.arr
      [CommentEntry.str "note", CommentEntry.str "PRIORITY:15",
       CommentEntry.str "PRIORITY:2"]) = max 1 (min 10 15) :=
  (extractPriority_first_match_clamped [CommentEntry.str "note"] "PRIORITY:15"
    [CommentEntry.str "PRIORITY:2"] 15 (by decide) (by decide)).1

/-- Claim C7: extractPriority returns the default 10 on null/undefined,
non-array, and empty inputs, and on any comment list in which no entry
matches the PRIORITY pattern (non-string entries never match and are
skipped rather than failing). -/
theorem extractPriority_defaults :
    extractPriority CommentsValue.nullish = 10 ∧
    extractPriority CommentsValue.notArray = 10 ∧
    extractPriority (CommentsValue.arr []) = 10 ∧
    entryMatch CommentEntry.nonString = none ∧
    ∀ l : List CommentEntry, (∀ e ∈ l, entryMatch e = none) →
      extractPriority (CommentsValue.arr l) = 10 := by
  refine ⟨rfl, rfl, rfl, rfl, ?_⟩
  intro l h
  cases l with
  | nil => rfl
  | cons e rest =>
    simp only [extractPriority, List.length_cons]
    rw [if_neg (by simp)]
    exact scanComments_no_match _ h

theorem extractPriority_defaults_witness :
    extractPriority (CommentsValue.arr
      [CommentEntry.nonString, CommentEntry.str "no tag here"]) = 10 :=
  extractPriority_defaults.2.2.2.2
    [CommentEntry.nonString, CommentEntry.str "no tag here"] (by decide)

/-- Claim C8: the classifier is total over the integers: priorities 1-3
map to the red (High) class, 4-7 to the yellow (Medium) class, and every
other integer falls through to the blue (Low) default class. -/
theorem getPriorityBorderColor_total (p : Int) :
    (1 ≤ p ∧ p ≤ 3 ∧ getPriorityBorderColor p = "border-l-red-500") ∨
    (4 ≤ p ∧ p ≤ 7 ∧ getPriorityBorderColor p = "border-l-yellow-500") ∨
    ((p < 1 ∨ 3 < p) ∧ (p < 4 ∨ 7 < p) ∧
      getPriorityBorderColor p = "border-l-blue-500") := by
  by_cases h1 : 1 ≤ p ∧ p ≤ 3
  · exact Or.inl ⟨h1.1, h1.2, by simp [getPriorityBorderColor, h1]⟩
  · by_cases h2 : 4 ≤ p ∧ p ≤ 7
    · exact Or.inr (Or.inl ⟨h2.1, h2.2, by simp [getPriorityBorderColor, h1, h2]⟩)
    · refine Or.inr (Or.inr ⟨?_, ?_, by simp [getPriorityBorderColor, h1, h2]⟩)
      · omega
      · omega

/-- Claim C9: the rendered progress percentage is always a defined number
(never the NaN/Infinity a zero divisor would give): it equals
executionCount / targetCount * 100 when targetCount > 0 and exactly 0 when
targetCount = 0. -/
theorem renderProgress_guarded (t : Task) :
    (renderProgress t).isSome = true ∧
    (0 < t.targetCount →
      renderProgress t =
        some (((t.executionCount : ℚ) / (t.targetCount : ℚ)) * 100)) ∧
    (t.targetCount = 0 → renderProgress t = some 0) := by
  by_cases h : 0 < t.targetCount
  · have hz : (t.targetCount : ℚ) ≠ 0 := by
      exact_mod_cast (by omega : t.targetCount ≠ 0)
    refine ⟨?_, fun _ => ?_, fun h0 => absurd h0 (by omega)⟩
    · simp [renderProgress, jsDiv, h, hz]
    · simp [renderProgress, jsDiv, h, hz]
  · refine ⟨?_, fun h' => absurd h' h, fun _ => ?_⟩
    · simp [renderProgress, h]
    · simp [renderProgress, h]

theorem renderProgress_guarded_witness :
    renderProgress sampleZeroTarget = some 0 ∧
    renderProgress sampleActive =
      some (((sampleActive.executionCount : ℚ) / (sampleActive.targetCount : ℚ)) * 100) :=
  ⟨(renderProgress_guarded sampleZeroTarget).2.2 rfl,
   (renderProgress_guarded sampleActive).2.1 (by decide)⟩

theorem sortLE_trans : ∀ (a b c : Nat × Task), sortLE a b → sortLE b c → sortLE a c := by
  intro a b c hab hbc
  have hab' : sortComparator a b ≤ 0 := of_decide_eq_true hab
  have hbc' : sortComparator b c ≤ 0 := of_decide_eq_true hbc
  refine decide_eq_true ?_
  unfold sortComparator at hab' hbc' ⊢
  cases ha : a.2.isCompleted <;> cases hb : b.2.isCompleted <;> cases hc : c.2.isCompleted <;>
    simp only [ha, hb, hc] at hab' hbc' ⊢ <;>
    split_ifs at hab' hbc' ⊢ <;> simp_all <;> omega

theorem sortLE_total : ∀ (a b : Nat × Task), sortLE a b || sortLE b a := by
  intro a b
  rcases le_or_lt (sortComparator a b) 0 with h | h
  · simp [sortLE, h]
  · have hba : sortComparator b a ≤ 0 := by
      unfold sortComparator at h ⊢
      cases ha : a.2.isCompleted <;> cases hb : b.2.isCompleted <;>
        simp only [ha, hb] at h ⊢ <;>
        split_ifs at h ⊢ <;> simp_all <;> omega
    simp [sortLE, hba]

theorem sortTasksIdx_perm (L : List Task) : (sortTasksIdx L).Perm L.enum :=
  List.mergeSort_perm L.enum sortLE

theorem sortTasksIdx_pairwise (L : List Task) :
    (sortTasksIdx L).Pairwise (fun a b => sortComparator a b ≤ 0) := by
  have h := List.sorted_mergeSort sortLE_trans sortLE_total L.enum
  exact h.imp (fun hxy => of_decide_eq_true hxy)

theorem enum_fst_pairwise_lt (L : List Task) :
    L.enum.Pairwise (fun a b => a.1 < b.1) := by
  have h : (L.enum.map Prod.fst).Pairwise (· < ·) := by
    rw [List.enum_map_fst]
    exact List.pairwise_lt_range _
  exact List.pairwise_map.mp h

theorem sortTasksIdx_fst_ne (L : List Task) :
    (sortTasksIdx L).Pairwise (fun a b => a.1 ≠ b.1) := by
  have henum : L.enum.Pairwise (fun a b : Nat × Task => a.1 ≠ b.1) :=
    (enum_fst_pairwise_lt L).imp (fun h => Nat.ne_of_lt h)
  exact ((sortTasksIdx_perm L).pairwise_iff (fun {x y} h => Ne.symm h)).mpr henum

theorem sortStable (L : List Task) (q : Nat × Task → Bool)
    (hq : ∀ a b : Nat × Task, sortComparator a b ≤ 0 → a.1 ≠ b.1 →
      q a = true → q b = true → a.1 < b.1) :
    (sortTasksIdx L).filter q = L.enum.filter q := by
  haveI : IsAntisymm (Nat × Task) (fun a b => a.1 < b.1) :=
    ⟨fun a b h h' => absurd (Nat.lt_trans h h') (Nat.lt_irrefl _)⟩
  have h3 : (sortTasksIdx L).Pairwise
      (fun a b => q a = true → q b = true → a.1 < b.1) :=
    ((sortTasksIdx_pairwise L).and (sortTasksIdx_fst_ne L)).imp
      (fun hab qa qb => hq _ _ hab.1 hab.2 qa qb)
  have h5 : ((sortTasksIdx L).filter q).Sorted (fun a b : Nat × Task => a.1 < b.1) := by
    have h4 := List.pairwise_filter.mpr h3
    simpa using h4
  have h6 : (L.enum.filter q).Sorted (fun a b : Nat × Task => a.1 < b.1) :=
    (enum_fst_pairwise_lt L).filter q
  exact @List.eq_of_perm_of_sorted _ (fun a b : Nat × Task => a.1 < b.1) _ _ _
    ((sortTasksIdx_perm L).filter q) h5 h6

theorem sortComparator_completed_le {a b : Nat × Task}
    (h : sortComparator a b ≤ 0) (ha : a.2.isCompleted = true) :
    b.2.isCompleted = true := by
  unfold sortComparator at h
  cases hb : b.2.isCompleted
  · simp [ha, hb] at h
  · rfl

theorem sortComparator_priority_le {a b : Nat × Task}
    (h : sortComparator a b ≤ 0) (ha : a.2.isCompleted = false)
    (hb : b.2.isCompleted = false) :
    defaultPriority a.2 ≤ defaultPriority b.2 := by
  unfold sortComparator at h
  simp only [ha, hb] at h
  split_ifs at h with h1 h2 h3
  · omega
  · simp at h1
  · omega
  · omega

/-- Claim C1: sortTasks is a length-preserving permutation of its input;
every active task precedes every completed task; among active tasks the
defaulted priority is non-decreasing; and within the completed group and
within each equal-priority active group the original input order is kept
exactly (the sorted index-task pairs filtered to such a group coincide
with the input enumeration filtered to it). -/
theorem sortTasks_spec (L : List Task) :
    (sortTasks L).length = L.length ∧
    (sortTasks L).Perm L ∧
    (sortTasks L).Pairwise (fun a b => a.isCompleted = true → b.isCompleted = true) ∧
    (sortTasks L).Pairwise (fun a b =>
      a.isCompleted = false → b.isCompleted = false →
        defaultPriority a ≤ defaultPriority b) ∧
    ((sortTasksIdx L).filter (fun a => a.2.isCompleted) =
      L.enum.filter (fun a => a.2.isCompleted)) ∧
    ∀ p : Int, (sortTasksIdx L).filter
        (fun a => !a.2.isCompleted && (defaultPriority a.2 == p)) =
      L.enum.filter (fun a => !a.2.isCompleted && (defaultPriority a.2 == p)) := by
  have hperm : (sortTasks L).Perm L := by
    have h := (sortTasksIdx_perm L).map Prod.snd
    rw [List.enum_map_snd] at h
    exact h
  refine ⟨hperm.length_eq, hperm, ?_, ?_, ?_, ?_⟩
  · exact List.pairwise_map.mpr
      ((sortTasksIdx_pairwise L).imp (fun h ha => sortComparator_completed_le h ha))
  · exact List.pairwise_map.mpr
      ((sortTasksIdx_pairwise L).imp
        (fun h ha hb => sortComparator_priority_le h ha hb))
  · refine sortStable L _ ?_
    intro a b hab hne qa qb
    unfold sortComparator at hab
    simp [qa, qb] at hab
    omega
  · intro p
    refine sortStable L _ ?_
    intro a b hab hne qa qb
    simp only [Bool.and_eq_true, Bool.not_eq_true', beq_iff_eq] at qa qb
    have hpp : defaultPriority a.2 = defaultPriority b.2 := by rw [qa.2, qb.2]
    unfold sortComparator at hab
    simp [qa.1, qb.1, hpp] at hab
    omega

end HealthGo
